import Mathlib

/-!
Shallow embedding of `src/oop.py`: an order-management example with three
order variants (online / phone / store), dict-based serialization with an
ISO-8601 timestamp, a factory dispatching on a discriminant tag, a
chain-of-responsibility cancellation workflow, and a customer order ledger.

Python dynamic values appearing in records are modelled by `Value`;
Python numbers (int and float compare equal in Python, e.g. `1 == 1.0`)
are modelled by a single rational constructor.  Exceptions are modelled by
`Except PyErr`: `keyError` is a dict access on a missing key,
`valueError` a `datetime.fromisoformat` parse failure, `typeError` an
unsupported operation on a value, and `invalidOrderError` the repository's
own `InvalidOrderError` with its message.
-/

/-- Dynamic (JSON-compatible) Python value stored in a record. -/
inductive Value where
  | num (q : ℚ)
  | str (s : String)
  | list (xs : List Value)
  | dict (xs : List (String × Value))

/-- Errors a modelled operation can raise. -/
inductive PyErr where
  | keyError (key : String)
  | valueError
  | typeError
  | invalidOrderError (msg : String)
deriving DecidableEq

/-- A record, as produced by `to_dict` and consumed by `from_dict`:
an insertion-ordered map from field name to value (Python dict). -/
abbrev Record := List (String × Value)

/-- Dict access `data[k]`: the value at key `k`, or a `KeyError` naming
the missing key. -/
def getField (data : Record) (k : String) : Except PyErr Value :=
  match data.lookup k with
  | some v => .ok v
  | none => .error (.keyError k)

/-- A value used where Python needs a `str` (argument of
`datetime.fromisoformat`); anything else raises `TypeError`. -/
def asStr : Value → Except PyErr String
  | .str s => .ok s
  | _ => .error .typeError

/-! ### The `datetime` collaborator (Python standard library)

`datetime.isoformat` / `datetime.fromisoformat` are stdlib functions used
by the source; they are modelled on the canonical ISO-8601 grammar that
`isoformat` emits: `YYYY-MM-DDTHH:MM:SS` with a `.ffffff` suffix exactly
when the microsecond field is nonzero. -/

/-- A `datetime.datetime` value (naive, no timezone, as in the source). -/
structure DateTime where
  year : Nat
  month : Nat
  day : Nat
  hour : Nat
  minute : Nat
  second : Nat
  microsecond : Nat
deriving DecidableEq

/-- Field ranges enforced by the Python `datetime` constructor (the day
bound is relaxed to 31 independently of the month). -/
def DateTime.Valid (d : DateTime) : Prop :=
  1 ≤ d.year ∧ d.year ≤ 9999 ∧ 1 ≤ d.month ∧ d.month ≤ 12 ∧
  1 ≤ d.day ∧ d.day ≤ 31 ∧ d.hour ≤ 23 ∧ d.minute ≤ 59 ∧
  d.second ≤ 59 ∧ d.microsecond ≤ 999999

instance (d : DateTime) : Decidable d.Valid := by
  unfold DateTime.Valid; infer_instance

/-- The decimal digit character for `d` (`0`–`9` for `d < 10`). -/
def digitChar (d : Nat) : Char := Char.ofNat (48 + d)

/-- `n` printed in exactly `w` decimal digits, zero-padded (the Python
format `f"\x7bn:0wd\x7d"` for `n < 10 ^ w`). -/
def natToChars : Nat → Nat → List Char
  | 0, _ => []
  | w + 1, n => digitChar (n / 10 ^ w % 10) :: natToChars w n

/-- Read exactly `w` decimal digits off the front of `cs`, extending the
accumulator `acc`; `none` if a non-digit (or the end) is hit. -/
def readFixedNat : Nat → Nat → List Char → Option (Nat × List Char)
  | 0, acc, cs => some (acc, cs)
  | w + 1, acc, c :: cs =>
      if c.isDigit then readFixedNat w (acc * 10 + (c.toNat - 48)) cs else none
  | _ + 1, _, [] => none

/-- Expect the literal character `c` at the front of the input. -/
def expectChar (c : Char) : List Char → Option (List Char)
  | c' :: cs => if c' = c then some cs else none
  | [] => none

/-- The characters of `datetime.isoformat()`: date, `T`, time, and the
fractional part exactly when `microsecond` is nonzero. -/
def isoChars (d : DateTime) : List Char :=
  natToChars 4 d.year ++ '-' ::
  (natToChars 2 d.month ++ '-' ::
  (natToChars 2 d.day ++ 'T' ::
  (natToChars 2 d.hour ++ ':' ::
  (natToChars 2 d.minute ++ ':' ::
  (natToChars 2 d.second ++
    (if d.microsecond = 0 then [] else '.' :: natToChars 6 d.microsecond))))))

/-- `datetime.isoformat()` as a string. -/
def isoformat (d : DateTime) : String := String.mk (isoChars d)

/-- Parse the canonical `isoformat` grammar. -/
def fromisoChars (cs : List Char) : Option DateTime := do
  let (y, cs) ← readFixedNat 4 0 cs
  let cs ← expectChar '-' cs
  let (mo, cs) ← readFixedNat 2 0 cs
  let cs ← expectChar '-' cs
  let (dy, cs) ← readFixedNat 2 0 cs
  let cs ← expectChar 'T' cs
  let (h, cs) ← readFixedNat 2 0 cs
  let cs ← expectChar ':' cs
  let (mi, cs) ← readFixedNat 2 0 cs
  let cs ← expectChar ':' cs
  let (s, cs) ← readFixedNat 2 0 cs
  match cs with
  | [] => some ⟨y, mo, dy, h, mi, s, 0⟩
  | '.' :: cs =>
      match readFixedNat 6 0 cs with
      | some (us, []) => some ⟨y, mo, dy, h, mi, s, us⟩
      | _ => none
  | _ => none

/-- `datetime.fromisoformat`: parse, or raise `ValueError` on a malformed
timestamp string. -/
def fromisoformat (s : String) : Except PyErr DateTime :=
  match fromisoChars s.data with
  | some d => .ok d
  | none => .error .valueError

/-! ### Round-trip of the datetime codec -/

theorem digitChar_isDigit {d : Nat} (h : d < 10) :
    (digitChar d).isDigit = true ∧ (digitChar d).toNat - 48 = d := by
  revert h; revert d; decide

theorem digit_decomp (n w : Nat) :
    n / 10 ^ w % 10 * 10 ^ w + n % 10 ^ w = n % 10 ^ (w + 1) := by
  have h1 : n / 10 ^ w % 10 = n % (10 ^ w * 10) / 10 ^ w :=
    (Nat.mod_mul_right_div_self n (10 ^ w) 10).symm
  have h2 : n % 10 ^ w = n % (10 ^ w * 10) % 10 ^ w :=
    (Nat.mod_mod_of_dvd n ⟨10, rfl⟩).symm
  rw [h1, h2, pow_succ]
  exact Nat.div_add_mod' _ _

theorem readFixedNat_append (w : Nat) :
    ∀ (acc n : Nat) (rest : List Char),
      readFixedNat w acc (natToChars w n ++ rest) =
        some (acc * 10 ^ w + n % 10 ^ w, rest) := by
  induction w with
  | zero => intro acc n rest; simp [readFixedNat, natToChars, Nat.mod_one]
  | succ w ih =>
      intro acc n rest
      have hd : n / 10 ^ w % 10 < 10 := Nat.mod_lt _ (by norm_num)
      obtain ⟨h1, h2⟩ := digitChar_isDigit hd
      have hc : (acc * 10 + n / 10 ^ w % 10) * 10 ^ w + n % 10 ^ w
          = acc * 10 ^ (w + 1) + (n / 10 ^ w % 10 * 10 ^ w + n % 10 ^ w) := by
        ring
      simp only [natToChars, List.cons_append, readFixedNat, h1, if_true, h2,
        List.append_eq]
      rw [ih, hc, digit_decomp]

theorem readFixedNat_exact (w acc n : Nat) :
    readFixedNat w acc (natToChars w n) = some (acc * 10 ^ w + n % 10 ^ w, []) := by
  have := readFixedNat_append w acc n []
  rwa [List.append_nil] at this

/-- Parsing the canonical rendering of a valid datetime recovers it
exactly (`datetime.fromisoformat(d.isoformat()) == d`). -/
theorem fromisoformat_isoformat {d : DateTime} (h : d.Valid) :
    fromisoformat (isoformat d) = .ok d := by
  obtain ⟨y, mo, dy, hh, mi, ss, us⟩ := d
  dsimp only [DateTime.Valid] at h
  obtain ⟨h1, h2, h3, h4, h5, h6, h7, h8, h9, h10⟩ := h
  by_cases h0 : us = 0 <;>
    (simp [fromisoformat, isoformat, isoChars, fromisoChars, h0,
      readFixedNat_append, readFixedNat_exact, expectChar, Option.bind];
     omega)

/-! ### Order variants (`OnlineOrder`, `PhoneOrder`, `StoreOrder`)

Python attributes are dynamically typed: the constructors store whatever
value was passed, so the non-date fields are `Value`s.  `order_date` is a
`DateTime` object (`to_dict` renders it, `from_dict` parses it). -/

structure OnlineOrder where
  order_id : Value
  price : Value
  customer : Value
  order_date : DateTime
  status : Value
  items : Value
  payment_method : Value

structure PhoneOrder where
  order_id : Value
  price : Value
  customer : Value
  order_date : DateTime
  status : Value
  operator_name : Value

structure StoreOrder where
  order_id : Value
  price : Value
  customer : Value
  order_date : DateTime
  status : Value
  store_location : Value

/-- `OnlineOrder.to_dict`: the record with the `"online"` discriminant. -/
def OnlineOrder.to_dict (o : OnlineOrder) : Record :=
  [("type", .str "online"),
   ("order_id", o.order_id),
   ("price", o.price),
   ("customer", o.customer),
   ("order_date", .str (isoformat o.order_date)),
   ("status", o.status),
   ("items", o.items),
   ("payment_method", o.payment_method)]

/-- `OnlineOrder.from_dict`: field lookups in the source's evaluation
order, with `datetime.fromisoformat` applied to `data["order_date"]`. -/
def OnlineOrder.from_dict (data : Record) : Except PyErr OnlineOrder := do
  let order_id ← getField data "order_id"
  let price ← getField data "price"
  let customer ← getField data "customer"
  let dateVal ← getField data "order_date"
  let dateStr ← asStr dateVal
  let order_date ← fromisoformat dateStr
  let status ← getField data "status"
  let items ← getField data "items"
  let payment_method ← getField data "payment_method"
  return ⟨order_id, price, customer, order_date, status, items, payment_method⟩

/-- `PhoneOrder.to_dict`: the record with the `"phone"` discriminant. -/
def PhoneOrder.to_dict (o : PhoneOrder) : Record :=
  [("type", .str "phone"),
   ("order_id", o.order_id),
   ("price", o.price),
   ("customer", o.customer),
   ("order_date", .str (isoformat o.order_date)),
   ("status", o.status),
   ("operator_name", o.operator_name)]

/-- `PhoneOrder.from_dict`. -/
def PhoneOrder.from_dict (data : Record) : Except PyErr PhoneOrder := do
  let order_id ← getField data "order_id"
  let price ← getField data "price"
  let customer ← getField data "customer"
  let dateVal ← getField data "order_date"
  let dateStr ← asStr dateVal
  let order_date ← fromisoformat dateStr
  let status ← getField data "status"
  let operator_name ← getField data "operator_name"
  return ⟨order_id, price, customer, order_date, status, operator_name⟩

/-- `StoreOrder.to_dict`: the record with the `"store"` discriminant. -/
def StoreOrder.to_dict (o : StoreOrder) : Record :=
  [("type", .str "store"),
   ("order_id", o.order_id),
   ("price", o.price),
   ("customer", o.customer),
   ("order_date", .str (isoformat o.order_date)),
   ("status", o.status),
   ("store_location", o.store_location)]

/-- `StoreOrder.from_dict`. -/
def StoreOrder.from_dict (data : Record) : Except PyErr StoreOrder := do
  let order_id ← getField data "order_id"
  let price ← getField data "price"
  let customer ← getField data "customer"
  let dateVal ← getField data "order_date"
  let dateStr ← asStr dateVal
  let order_date ← fromisoformat dateStr
  let status ← getField data "status"
  let store_location ← getField data "store_location"
  return ⟨order_id, price, customer, order_date, status, store_location⟩

/-- An order of any variant (the `Order` abstract base class). -/
inductive Order where
  | online (o : OnlineOrder)
  | phone (o : PhoneOrder)
  | store (o : StoreOrder)

/-- The `price` attribute shared by all variants. -/
def Order.price : Order → Value
  | .online o => o.price
  | .phone o => o.price
  | .store o => o.price

theorem ok_bind {ε α β : Type} (a : α) (f : α → Except ε β) :
    (Except.ok a >>= f : Except ε β) = f a := rfl

theorem online_from_dict_to_dict (o : OnlineOrder) (h : o.order_date.Valid) :
    OnlineOrder.from_dict o.to_dict = .ok o := by
  obtain ⟨oid, pr, cu, od, st, it, pm⟩ := o
  have h' : od.Valid := h
  simp [OnlineOrder.from_dict, OnlineOrder.to_dict, getField, asStr,
    List.lookup, ok_bind, fromisoformat_isoformat h']

theorem phone_from_dict_to_dict (o : PhoneOrder) (h : o.order_date.Valid) :
    PhoneOrder.from_dict o.to_dict = .ok o := by
  obtain ⟨oid, pr, cu, od, st, opn⟩ := o
  have h' : od.Valid := h
  simp [PhoneOrder.from_dict, PhoneOrder.to_dict, getField, asStr,
    List.lookup, ok_bind, fromisoformat_isoformat h']

theorem store_from_dict_to_dict (o : StoreOrder) (h : o.order_date.Valid) :
    StoreOrder.from_dict o.to_dict = .ok o := by
  obtain ⟨oid, pr, cu, od, st, sl⟩ := o
  have h' : od.Valid := h
  simp [StoreOrder.from_dict, StoreOrder.to_dict, getField, asStr,
    List.lookup, ok_bind, fromisoformat_isoformat h']

/-! ### The order factory -/

/-- The class objects `OrderFactory.create_order` can return. -/
inductive OrderClass where
  | onlineOrder
  | phoneOrder
  | storeOrder
deriving DecidableEq

/-- `OrderFactory.create_order`: dispatch on the discriminant tag, raising
`InvalidOrderError` (message carrying the tag) on anything else. -/
def OrderFactory.create_order (order_type : String) : Except PyErr OrderClass :=
  if order_type = "online" then .ok .onlineOrder
  else if order_type = "phone" then .ok .phoneOrder
  else if order_type = "store" then .ok .storeOrder
  else .error (.invalidOrderError ("Неизвестный тип заказа: " ++ order_type))

/-! ### Customer and the order ledger -/

structure Address where
  street : String
  city : String
  zip_code : String
  country : String

structure Customer where
  name : String
  email : String
  phone : String
  address : Address
  order_history : List Order

/-- `Customer.__init__`: the history starts empty. -/
def mkCustomer (name email phone : String) (address : Address) : Customer :=
  ⟨name, email, phone, address, []⟩

/-- `Customer.place_order`: append to the history. -/
def Customer.place_order (c : Customer) (o : Order) : Customer :=
  { c with order_history := c.order_history ++ [o] }

/-- `Customer.get_order_history`: return the history. -/
def Customer.get_order_history (c : Customer) : List Order :=
  c.order_history

/-! ### The cancellation chain -/

/-- `CancellationRequest`: a borrowed order, a reason, and the mutable
`approved` flag. -/
structure CancellationRequest where
  order : Order
  reason : String
  approved : Bool

/-- `CancellationRequest.__init__`: `approved` starts `False`. -/
def mkCancellationRequest (order : Order) (reason : String) :
    CancellationRequest :=
  ⟨order, reason, false⟩

/-- A handler object with its `_next_handler` link; `nil` is the absent
(`None`) link, on which delegation is skipped. -/
inductive Handler where
  | nil
  | operator (next : Handler)
  | manager (next : Handler)
  | admin (next : Handler)

/-- Python comparison `v > c` for a record value against a number:
defined on numbers, `TypeError` otherwise. -/
def pyGT (v : Value) (c : ℚ) : Except PyErr Bool :=
  match v with
  | .num q => .ok (decide (q > c))
  | _ => .error .typeError

/-- `handle` of each handler class, with mutation of the request modelled
by returning the updated request.  The Python guard
`if self._next_handler:` corresponds to the `nil` case, which leaves the
request untouched. -/
def handle : Handler → CancellationRequest → Except PyErr CancellationRequest
  | .nil, req => .ok req
  | .operator next, req =>
      if req.reason ≠ "" then handle next req
      else .ok req
  | .manager next, req =>
      match pyGT req.order.price 500 with
      | .error e => .error e
      | .ok true => handle next req
      | .ok false => .ok { req with approved := true }
  | .admin _, req => .ok { req with approved := true }

/-- The chain wired in `main`:
`operator.set_next(manager).set_next(admin)`. -/
def fullChain : Handler := .operator (.manager (.admin .nil))

theorem error_bind {ε α β : Type} (e : ε) (f : α → Except ε β) :
    (Except.error e >>= f : Except ε β) = .error e := rfl

/-! ### Concrete sample data (used by the closed witness theorems) -/

def sampleDate : DateTime := ⟨2024, 5, 17, 14, 30, 0, 0⟩

def sampleOnline : OnlineOrder :=
  ⟨.num 1, .num 100, .str "Иван Иванов", sampleDate, .str "создан",
   .list [.dict [("name", .str "ноутбук"), ("qty", .num 1)]], .str "карта"⟩

def sampleStore : StoreOrder :=
  ⟨.num 2, .num 500, .str "Иван Иванов", sampleDate, .str "создан",
   .str "Москва"⟩

def samplePhone : PhoneOrder :=
  ⟨.num 3, .num 501, .str "Иван Иванов", sampleDate, .str "создан",
   .str "Анна"⟩

/-- The fields a variant's `from_dict` reads (in source order). -/
def onlineRequiredFields : List String :=
  ["order_id", "price", "customer", "order_date", "status", "items",
   "payment_method"]

def phoneRequiredFields : List String :=
  ["order_id", "price", "customer", "order_date", "status", "operator_name"]

def storeRequiredFields : List String :=
  ["order_id", "price", "customer", "order_date", "status", "store_location"]

/-- The key sequence a variant's `to_dict` emits. -/
def onlineRecordKeys : List String :=
  ["type", "order_id", "price", "customer", "order_date", "status", "items",
   "payment_method"]

def phoneRecordKeys : List String :=
  ["type", "order_id", "price", "customer", "order_date", "status",
   "operator_name"]

def storeRecordKeys : List String :=
  ["type", "order_id", "price", "customer", "order_date", "status",
   "store_location"]

/-- Remove a key (and its value) from a record. -/
def eraseKey (k : String) (r : Record) : Record :=
  r.filter (fun p => p.1 != k)

/-- The keys of a record, in order. -/
def keysOf (r : Record) : List String := r.map Prod.fst

theorem online_from_dict_of_required (o : OnlineOrder)
    (h : o.order_date.Valid) (r : Record)
    (hl : ∀ f ∈ onlineRequiredFields,
      r.lookup f = (OnlineOrder.to_dict o).lookup f) :
    OnlineOrder.from_dict r = .ok o := by
  obtain ⟨oid, pr, cu, od, st, it, pm⟩ := o
  have h' : od.Valid := h
  have e1 := hl "order_id" (by decide)
  have e2 := hl "price" (by decide)
  have e3 := hl "customer" (by decide)
  have e4 := hl "order_date" (by decide)
  have e5 := hl "status" (by decide)
  have e6 := hl "items" (by decide)
  have e7 := hl "payment_method" (by decide)
  simp [OnlineOrder.to_dict, List.lookup] at e1 e2 e3 e4 e5 e6 e7
  simp [OnlineOrder.from_dict, getField, e1, e2, e3, e4, e5, e6, e7, asStr,
    ok_bind, fromisoformat_isoformat h']

theorem phone_from_dict_of_required (o : PhoneOrder)
    (h : o.order_date.Valid) (r : Record)
    (hl : ∀ f ∈ phoneRequiredFields,
      r.lookup f = (PhoneOrder.to_dict o).lookup f) :
    PhoneOrder.from_dict r = .ok o := by
  obtain ⟨oid, pr, cu, od, st, opn⟩ := o
  have h' : od.Valid := h
  have e1 := hl "order_id" (by decide)
  have e2 := hl "price" (by decide)
  have e3 := hl "customer" (by decide)
  have e4 := hl "order_date" (by decide)
  have e5 := hl "status" (by decide)
  have e6 := hl "operator_name" (by decide)
  simp [PhoneOrder.to_dict, List.lookup] at e1 e2 e3 e4 e5 e6
  simp [PhoneOrder.from_dict, getField, e1, e2, e3, e4, e5, e6, asStr,
    ok_bind, fromisoformat_isoformat h']

theorem store_from_dict_of_required (o : StoreOrder)
    (h : o.order_date.Valid) (r : Record)
    (hl : ∀ f ∈ storeRequiredFields,
      r.lookup f = (StoreOrder.to_dict o).lookup f) :
    StoreOrder.from_dict r = .ok o := by
  obtain ⟨oid, pr, cu, od, st, sl⟩ := o
  have h' : od.Valid := h
  have e1 := hl "order_id" (by decide)
  have e2 := hl "price" (by decide)
  have e3 := hl "customer" (by decide)
  have e4 := hl "order_date" (by decide)
  have e5 := hl "status" (by decide)
  have e6 := hl "store_location" (by decide)
  simp [StoreOrder.to_dict, List.lookup] at e1 e2 e3 e4 e5 e6
  simp [StoreOrder.from_dict, getField, e1, e2, e3, e4, e5, e6, asStr,
    ok_bind, fromisoformat_isoformat h']

/-! ### Claims -/

/-- C1: for every order variant and every valid field assignment,
`from_dict` applied to the record produced by `to_dict` yields an order
whose `to_dict` output equals the original record exactly, including the
discriminant `type` tag. -/
theorem variant_roundtrip :
    (∀ o : OnlineOrder, o.order_date.Valid →
      ∃ o', OnlineOrder.from_dict o.to_dict = .ok o' ∧
        OnlineOrder.to_dict o' = OnlineOrder.to_dict o) ∧
    (∀ o : PhoneOrder, o.order_date.Valid →
      ∃ o', PhoneOrder.from_dict o.to_dict = .ok o' ∧
        PhoneOrder.to_dict o' = PhoneOrder.to_dict o) ∧
    (∀ o : StoreOrder, o.order_date.Valid →
      ∃ o', StoreOrder.from_dict o.to_dict = .ok o' ∧
        StoreOrder.to_dict o' = StoreOrder.to_dict o) :=
  ⟨fun o h => ⟨o, online_from_dict_to_dict o h, rfl⟩,
   fun o h => ⟨o, phone_from_dict_to_dict o h, rfl⟩,
   fun o h => ⟨o, store_from_dict_to_dict o h, rfl⟩⟩

theorem variant_roundtrip_witness :
    sampleOnline.order_date.Valid ∧
    ∃ o', OnlineOrder.from_dict sampleOnline.to_dict = .ok o' ∧
      OnlineOrder.to_dict o' = OnlineOrder.to_dict sampleOnline :=
  ⟨by decide, variant_roundtrip.1 sampleOnline (by decide)⟩

/-- C2: `OrderFactory.create_order` maps exactly `"online"`, `"phone"`,
`"store"` to the matching class; every other string raises the factory's
invalid-order error whose message carries the offending tag. -/
theorem factory_closed_dispatch :
    OrderFactory.create_order "online" = .ok .onlineOrder ∧
    OrderFactory.create_order "phone" = .ok .phoneOrder ∧
    OrderFactory.create_order "store" = .ok .storeOrder ∧
    ∀ s : String, s ≠ "online" → s ≠ "phone" → s ≠ "store" →
      OrderFactory.create_order s =
        .error (.invalidOrderError ("Неизвестный тип заказа: " ++ s)) := by
  refine ⟨rfl, rfl, rfl, ?_⟩
  intro s h1 h2 h3
  simp [OrderFactory.create_order, h1, h2, h3]

theorem factory_closed_dispatch_witness :
    OrderFactory.create_order "express" =
      .error (.invalidOrderError ("Неизвестный тип заказа: " ++ "express")) :=
  factory_closed_dispatch.2.2.2 "express" (by decide) (by decide) (by decide)

/-- C3: a request whose reason is the empty string is rejected by the
Operator without delegating (whatever the rest of the chain is), and the
`approved` flag stays `false`. -/
theorem operator_rejects_empty_reason (o : Order) (next : Handler) :
    handle fullChain (mkCancellationRequest o "") =
      .ok (mkCancellationRequest o "") ∧
    handle (.operator next) (mkCancellationRequest o "") =
      .ok (mkCancellationRequest o "") ∧
    (mkCancellationRequest o "").approved = false := by
  refine ⟨?_, ?_, rfl⟩ <;> simp [fullChain, handle, mkCancellationRequest]

/-- C4: a non-empty reason with price at most 500 (boundary included) is
approved by the Manager, with no delegation past the Manager (the result
is independent of what follows it). -/
theorem manager_approves_low_price (o : Order) (r : String) (q : ℚ)
    (hr : r ≠ "") (hp : Order.price o = .num q) (hq : q ≤ 500) :
    handle fullChain (mkCancellationRequest o r) =
      .ok { order := o, reason := r, approved := true } ∧
    ∀ after : Handler,
      handle (.operator (.manager after)) (mkCancellationRequest o r) =
        .ok { order := o, reason := r, approved := true } := by
  have hd : decide ((q : ℚ) > 500) = false := decide_eq_false (not_lt.mpr hq)
  constructor
  · simp [fullChain, handle, mkCancellationRequest, hr, hp, pyGT, hd]
  · intro after
    simp [handle, mkCancellationRequest, hr, hp, pyGT, hd]

theorem manager_approves_low_price_witness :
    handle fullChain (mkCancellationRequest (.store sampleStore) "Передумал") =
      .ok { order := .store sampleStore, reason := "Передумал",
            approved := true } :=
  (manager_approves_low_price (.store sampleStore) "Передумал" 500
    (by decide) rfl (by norm_num)).1

/-- C5: a non-empty reason with price strictly above 500 escalates through
Operator and Manager to the Admin, who always approves; the request ends
approved. -/
theorem admin_approves_high_price (o : Order) (r : String) (q : ℚ)
    (hr : r ≠ "") (hp : Order.price o = .num q) (hq : q > 500) :
    handle fullChain (mkCancellationRequest o r) =
      .ok { order := o, reason := r, approved := true } ∧
    handle (.operator (.manager .nil)) (mkCancellationRequest o r) =
      .ok (mkCancellationRequest o r) ∧
    ∀ (req : CancellationRequest) (next : Handler),
      handle (.admin next) req = .ok { req with approved := true } := by
  have hd : decide ((q : ℚ) > 500) = true := decide_eq_true hq
  refine ⟨?_, ?_, fun req next => rfl⟩
  · simp [fullChain, handle, mkCancellationRequest, hr, hp, pyGT, hd]
  · simp [handle, mkCancellationRequest, hr, hp, pyGT, hd]

theorem admin_approves_high_price_witness :
    handle fullChain (mkCancellationRequest (.phone samplePhone) "Передумал") =
      .ok { order := .phone samplePhone, reason := "Передумал",
            approved := true } :=
  (admin_approves_high_price (.phone samplePhone) "Передумал" 501
    (by decide) rfl (by norm_num)).1

/-- C8: placing three orders on a fresh customer yields exactly those
orders in insertion order. -/
theorem ledger_insertion_order (nm em ph : String) (addr : Address)
    (o1 o2 o3 : Order) :
    Customer.get_order_history
      (Customer.place_order
        (Customer.place_order
          (Customer.place_order (mkCustomer nm em ph addr) o1) o2) o3) =
      [o1, o2, o3] := rfl

/-- C10: a handler that decides to delegate but has no successor returns
without an error and leaves the request unapproved: an Operator with no
successor on a non-empty reason, and a Manager with no successor on a
price above 500. -/
theorem unwired_chain_leaves_unapproved (o : Order) (r : String) (q : ℚ)
    (hr : r ≠ "") :
    handle (.operator .nil) (mkCancellationRequest o r) =
      .ok (mkCancellationRequest o r) ∧
    (Order.price o = .num q → q > 500 →
      handle (.manager .nil) (mkCancellationRequest o r) =
        .ok (mkCancellationRequest o r)) ∧
    (mkCancellationRequest o r).approved = false := by
  refine ⟨?_, ?_, rfl⟩
  · simp [handle, mkCancellationRequest, hr]
  · intro hp hq
    have hd : decide ((q : ℚ) > 500) = true := decide_eq_true hq
    simp [handle, mkCancellationRequest, hp, pyGT, hd]

/-- C7: a successful run of any handler (hence of any chain) leaves the
referenced order and the reason untouched; the resulting request is either
the input request unchanged or the input request with `approved` set to
`true`. -/
theorem handler_frame (h : Handler) :
    ∀ req req' : CancellationRequest, handle h req = .ok req' →
      req'.order = req.order ∧ req'.reason = req.reason ∧
      (req' = req ∨ req' = { req with approved := true }) := by
  induction h with
  | nil =>
      intro req req' e
      simp only [handle, Except.ok.injEq] at e
      subst e
      exact ⟨rfl, rfl, .inl rfl⟩
  | operator next ih =>
      intro req req' e
      by_cases hr : req.reason = ""
      · simp only [handle, hr, ne_eq, not_true_eq_false, if_false,
          Except.ok.injEq] at e
        subst e
        exact ⟨rfl, rfl, .inl rfl⟩
      · simp only [handle, hr, ne_eq, not_false_eq_true, if_true] at e
        exact ih req req' e
  | manager next ih =>
      intro req req' e
      rcases hp : req.order.price with q | s | xs | xs <;>
        simp only [handle, pyGT, hp] at e
      case str => exact Except.noConfusion e
      case list => exact Except.noConfusion e
      case dict => exact Except.noConfusion e
      case num =>
        by_cases hq : (q : ℚ) > 500
        · rw [decide_eq_true hq] at e
          exact ih req req' e
        · rw [decide_eq_false hq] at e
          simp only [Except.ok.injEq] at e
          subst e
          exact ⟨rfl, rfl, .inr rfl⟩
  | admin next ih =>
      intro req req' e
      simp only [handle, Except.ok.injEq] at e
      subst e
      exact ⟨rfl, rfl, .inr rfl⟩

theorem handler_frame_witness :
    ({ order := Order.online sampleOnline, reason := "Передумал",
       approved := true } : CancellationRequest).order =
      (mkCancellationRequest (.online sampleOnline) "Передумал").order ∧
    ({ order := Order.online sampleOnline, reason := "Передумал",
       approved := true } : CancellationRequest).reason =
      (mkCancellationRequest (.online sampleOnline) "Передумал").reason ∧
    (({ order := Order.online sampleOnline, reason := "Передумал",
        approved := true } : CancellationRequest) =
        mkCancellationRequest (.online sampleOnline) "Передумал" ∨
     ({ order := Order.online sampleOnline, reason := "Передумал",
        approved := true } : CancellationRequest) =
        { mkCancellationRequest (.online sampleOnline) "Передумал" with
            approved := true }) :=
  handler_frame fullChain
    (mkCancellationRequest (.online sampleOnline) "Передумал")
    { order := .online sampleOnline, reason := "Передумал",
      approved := true } rfl

theorem unwired_chain_leaves_unapproved_witness :
    handle (.operator .nil)
        (mkCancellationRequest (.phone samplePhone) "Передумал") =
      .ok (mkCancellationRequest (.phone samplePhone) "Передумал") ∧
    handle (.manager .nil)
        (mkCancellationRequest (.phone samplePhone) "Передумал") =
      .ok (mkCancellationRequest (.phone samplePhone) "Передумал") :=
  ⟨(unwired_chain_leaves_unapproved (.phone samplePhone) "Передумал" 501
      (by decide)).1,
   (unwired_chain_leaves_unapproved (.phone samplePhone) "Передумал" 501
      (by decide)).2.1 rfl (by norm_num)⟩

/-- C6: erasing any field that a variant's `from_dict` reads from a
stored record makes reconstruction fail with the key error naming that
field (Python's `KeyError` on the dict access — the spec's
missing-field failure); no default is substituted. -/
theorem missing_field_fails :
    (∀ o : OnlineOrder, o.order_date.Valid →
      ∀ f ∈ onlineRequiredFields,
        OnlineOrder.from_dict (eraseKey f o.to_dict) =
          .error (.keyError f)) ∧
    (∀ o : PhoneOrder, o.order_date.Valid →
      ∀ f ∈ phoneRequiredFields,
        PhoneOrder.from_dict (eraseKey f o.to_dict) =
          .error (.keyError f)) ∧
    (∀ o : StoreOrder, o.order_date.Valid →
      ∀ f ∈ storeRequiredFields,
        StoreOrder.from_dict (eraseKey f o.to_dict) =
          .error (.keyError f)) := by
  refine ⟨?_, ?_, ?_⟩
  · intro o h f hf
    obtain ⟨oid, pr, cu, od, st, it, pm⟩ := o
    have h' : od.Valid := h
    fin_cases hf <;>
      simp [OnlineOrder.from_dict, OnlineOrder.to_dict, getField, asStr,
        eraseKey, List.lookup, List.filter, ok_bind, error_bind,
        fromisoformat_isoformat h']
  · intro o h f hf
    obtain ⟨oid, pr, cu, od, st, opn⟩ := o
    have h' : od.Valid := h
    fin_cases hf <;>
      simp [PhoneOrder.from_dict, PhoneOrder.to_dict, getField, asStr,
        eraseKey, List.lookup, List.filter, ok_bind, error_bind,
        fromisoformat_isoformat h']
  · intro o h f hf
    obtain ⟨oid, pr, cu, od, st, sl⟩ := o
    have h' : od.Valid := h
    fin_cases hf <;>
      simp [StoreOrder.from_dict, StoreOrder.to_dict, getField, asStr,
        eraseKey, List.lookup, List.filter, ok_bind, error_bind,
        fromisoformat_isoformat h']

theorem missing_field_fails_witness :
    OnlineOrder.from_dict (eraseKey "status" sampleOnline.to_dict) =
      .error (.keyError "status") :=
  missing_field_fails.1 sampleOnline (by decide) "status" (by decide)

/-- C9: a record whose required fields hold the same (well-formed) values
as a serialized order reconstructs that order exactly, whatever other
keys it carries; the reconstructed order re-serializes to the fixed key
set of its variant, so any record whose key sequence differs from that
fixed set is not reproduced by the round trip. -/
theorem extra_keys_ignored :
    (∀ o : OnlineOrder, o.order_date.Valid → ∀ r : Record,
      (∀ f ∈ onlineRequiredFields,
        r.lookup f = (OnlineOrder.to_dict o).lookup f) →
      OnlineOrder.from_dict r = .ok o ∧
      keysOf (OnlineOrder.to_dict o) = onlineRecordKeys ∧
      (keysOf r ≠ onlineRecordKeys → OnlineOrder.to_dict o ≠ r)) ∧
    (∀ o : PhoneOrder, o.order_date.Valid → ∀ r : Record,
      (∀ f ∈ phoneRequiredFields,
        r.lookup f = (PhoneOrder.to_dict o).lookup f) →
      PhoneOrder.from_dict r = .ok o ∧
      keysOf (PhoneOrder.to_dict o) = phoneRecordKeys ∧
      (keysOf r ≠ phoneRecordKeys → PhoneOrder.to_dict o ≠ r)) ∧
    (∀ o : StoreOrder, o.order_date.Valid → ∀ r : Record,
      (∀ f ∈ storeRequiredFields,
        r.lookup f = (StoreOrder.to_dict o).lookup f) →
      StoreOrder.from_dict r = .ok o ∧
      keysOf (StoreOrder.to_dict o) = storeRecordKeys ∧
      (keysOf r ≠ storeRecordKeys → StoreOrder.to_dict o ≠ r)) := by
  refine ⟨fun o h r hl => ⟨online_from_dict_of_required o h r hl, rfl, ?_⟩,
          fun o h r hl => ⟨phone_from_dict_of_required o h r hl, rfl, ?_⟩,
          fun o h r hl => ⟨store_from_dict_of_required o h r hl, rfl, ?_⟩⟩ <;>
    (intro hk he; exact hk (by rw [← he]; rfl))

theorem extra_keys_ignored_witness :
    OnlineOrder.from_dict
        (OnlineOrder.to_dict sampleOnline ++ [("extra", Value.num 7)]) =
      .ok sampleOnline ∧
    keysOf (OnlineOrder.to_dict sampleOnline) = onlineRecordKeys ∧
    (keysOf (OnlineOrder.to_dict sampleOnline ++ [("extra", Value.num 7)]) ≠
        onlineRecordKeys →
      OnlineOrder.to_dict sampleOnline ≠
        OnlineOrder.to_dict sampleOnline ++ [("extra", Value.num 7)]) :=
  extra_keys_ignored.1 sampleOnline (by decide)
    (OnlineOrder.to_dict sampleOnline ++ [("extra", Value.num 7)])
    (by intro f hf; fin_cases hf <;> rfl)
